import Mathlib

/-!
# Verification of `validate_pyproject.api` and `validate_pyproject.vendoring`

A shallow embedding of the schema-registry, reference-handler, validator and
vendoring code-fixing logic of the `validate-pyproject` package, together with
proofs of the specified properties.

Python dictionaries are modelled as insertion-ordered association lists
(`dictSet` inserts at the end for a fresh key and updates in place for an
existing key, exactly like CPython dicts).  Python exceptions are modelled with
`Except`.  JSON schema documents are modelled by the `Schema` structure, which
records exactly the fields the embedded code reads or writes (`$id`,
`$schema`, `properties.tool.properties`, and the top-level `project` key).
-/

set_option autoImplicit false

namespace ValidatePyproject

universe u v

/-- First-match lookup in an association list: the semantics of `d[k]` /
`k in d` on a Python dict represented as its insertion-ordered item list
(keys are unique in an actual dict, so first match = the match). -/
def dictLookup {α : Type u} : List (String × α) → String → Option α
  | [], _ => none
  | (k, v) :: d, key => if key = k then some v else dictLookup d key

/-- `d[k] = v` on a Python dict: update in place when the key is present
(keeping its position — the first occurrence is the only one, keys of a dict
being unique), append at the end when it is fresh. -/
def dictSet {α : Type u} : List (String × α) → String → α → List (String × α)
  | [], k, v => [(k, v)]
  | (k1, v1) :: d, k, v =>
    if k1 = k then (k, v) :: d
    else (k1, v1) :: dictSet d k v

/-- One JSON-Schema document, restricted to the fields the code under
verification reads or writes:

* `dollarId` — the optional top-level `"$id"` entry;
* `dollarSchema` — the optional top-level `"$schema"` entry;
* `toolProps` — `properties.tool.properties`, mapping a tool name to the
  `$id` target of the `{"$ref": sid}` object stored there (only the top-level
  schema ever has entries here);
* `projectRef` — the target of the top-level `"project": {"$ref": sid}` entry
  written during registry construction. -/
structure Schema where
  dollarId : Option String
  dollarSchema : Option String
  toolProps : List (String × String)
  projectRef : Option String
deriving DecidableEq, Repr

/-- The `pyproject_toml` top-level schema resource, restricted to the fields
`SchemaRegistry.__init__` reads unconditionally: its `"$id"`, its `"$schema"`
(which becomes the registry's spec version) and
`properties.tool.setdefault("properties", {})`. -/
structure TopLevelSchema where
  dollarId : String
  dollarSchema : String
  toolProps : List (String × String)
deriving DecidableEq, Repr

/-- A plugin descriptor: `plugin.__module__`, `plugin.__class__.__qualname__`,
`plugin.tool_name`, `plugin.tool_schema`, and `plugin.format_validators` when
the attribute exists (`none` models a plugin without the attribute).
`φ` is the type of format-validation functions (opaque values here). -/
structure Plugin (φ : Type v) where
  moduleName : String
  qualName : String
  tool_name : String
  tool_schema : Schema
  format_validators : Option (List (String × φ))

/-- `plugin_id`: `f"{plugin.__module__}.{plugin.__class__.__qualname__}"`. -/
def pluginIdOf {φ : Type v} (p : Plugin φ) : String :=
  p.moduleName ++ "." ++ p.qualName

/-- The errors `SchemaRegistry` construction can raise (module
`validate_pyproject.errors`). -/
inductive RegistryError where
  | schemaMissingId (reference : String)
  | invalidSchemaVersion (reference : String) (version : String) (specVersion : String)
  | schemaWithDuplicatedId (sid : String)
deriving DecidableEq, Repr

/-- A value of `SchemaRegistry._schemas`: the
`(which part of the TOML, who defines, schema)` triple. -/
abbrev RegistryEntry := String × String × Schema

/-- `SchemaRegistry._ensure_compatibility`, returning the checked schema's
`"$id"` (the caller immediately indexes `["$id"]` on the returned schema).
Check order mirrors the source: missing `$id` first, then the spec-version
check (only when the declared version is truthy, i.e. non-`None` and
non-empty), then the global duplicate-id check. -/
def ensureCompatibility (specVersion : String)
    (schemas : List (String × RegistryEntry)) (reference : String)
    (schema : Schema) : Except RegistryError String :=
  match schema.dollarId with
  | none => .error (.schemaMissingId reference)
  | some sid =>
    match schema.dollarSchema with
    | some version =>
      if version ≠ "" ∧ version ≠ specVersion then
        .error (.invalidSchemaVersion reference version specVersion)
      else if (dictLookup schemas sid).isSome then
        .error (.schemaWithDuplicatedId sid)
      else
        .ok sid
    | none =>
      if (dictLookup schemas sid).isSome then
        .error (.schemaWithDuplicatedId sid)
      else
        .ok sid

/-- `version` passes the truthy spec-version test of
`_ensure_compatibility` (absent, empty, or equal to the registry's). -/
def versionPasses : Option String → String → Bool
  | none, _ => true
  | some v, specVersion => v = "" || v = specVersion

/-- The plugin loop of `SchemaRegistry.__init__`: for each plugin in order,
run `_ensure_compatibility`, point `tool_properties[tool]` at the schema's
`$id` (last writer wins; the tool-name collision branch only logs), and store
the entry in `_schemas` keyed by `$id`.  The logging calls have no effect on
the state and are omitted. -/
def addPlugins {φ : Type v} (specVersion : String) :
    List (Plugin φ) → List (String × RegistryEntry) → List (String × String) →
    Except RegistryError (List (String × RegistryEntry) × List (String × String))
  | [], schemas, toolProps => .ok (schemas, toolProps)
  | p :: ps, schemas, toolProps =>
    match ensureCompatibility specVersion schemas p.tool_name p.tool_schema with
    | .error e => .error e
    | .ok sid =>
      addPlugins specVersion ps
        (dictSet schemas sid ("tool." ++ p.tool_name, pluginIdOf p, p.tool_schema))
        (dictSet toolProps p.tool_name sid)

/-- The constructed `SchemaRegistry`: spec version, the `_schemas` dict and
`_main_id`. -/
structure SchemaRegistry where
  specVersion : String
  schemas : List (String × RegistryEntry)
  mainId : String
deriving DecidableEq, Repr

/-- `SchemaRegistry.__getitem__`: `self._schemas[key][-1]`. -/
def SchemaRegistry.getSchema (r : SchemaRegistry) (key : String) : Option Schema :=
  (dictLookup r.schemas key).map (fun e => e.2.2)

/-- `SchemaRegistry.main`: the frozen top-level schema, looked up by
`_main_id`. -/
def SchemaRegistry.main (r : SchemaRegistry) : Option Schema :=
  r.getSchema r.mainId

/-- `SchemaRegistry.__init__`, parameterised by the two core schema resources
(`pyproject_toml` and `pep621_project`, loaded from package data files that
are outside the verified sources).  Registers the project-table schema first
(checked against an empty `_schemas`), then each plugin in order, and finally
stores the frozen top level under its own `$id` with the sentinel slot
`"<$ROOT>"` — with plain dict assignment, not a compatibility check. -/
def registryInit {φ : Type v} (top : TopLevelSchema) (projectTable : Schema)
    (plugins : List (Plugin φ)) : Except RegistryError SchemaRegistry :=
  let specVersion := top.dollarSchema
  match ensureCompatibility specVersion [] "pep621_project" projectTable with
  | .error e => .error e
  | .ok psid =>
    let schemas0 : List (String × RegistryEntry) :=
      [(psid, ("project", "validate_pyproject.api - PEP621", projectTable))]
    match addPlugins specVersion plugins schemas0 top.toolProps with
    | .error e => .error e
    | .ok (schemas1, toolProps1) =>
      let mainSchema : Schema :=
        { dollarId := some top.dollarId
          dollarSchema := some top.dollarSchema
          toolProps := toolProps1
          projectRef := some psid }
      let schemas2 := dictSet schemas1 top.dollarId
        ("<$ROOT>", "validate_pyproject.api - PEP517/518", mainSchema)
      .ok { specVersion := specVersion, schemas := schemas2, mainId := top.dollarId }

/-- `len(registry)` of a construction result: `some` of
`len(self._schemas)` on success, `none` when construction raised. -/
def registryResultLen : Except RegistryError SchemaRegistry → Option Nat
  | .ok r => some r.schemas.length
  | .error _ => none

/-- Whether a construction result is a `SchemaWithDuplicatedId` failure. -/
def isDuplicatedIdError : Except RegistryError SchemaRegistry → Bool
  | .error (.schemaWithDuplicatedId _) => true
  | _ => false

/-! ## Reference handler -/

/-- A Python object as far as `RefHandler.__contains__` can distinguish one:
a string, or a non-string (integers and `None` are the shapes named by the
specification). -/
inductive PyObj where
  | pyStr (s : String)
  | pyInt (n : Int)
  | pyNone
deriving DecidableEq, Repr

/-- Whether the object is a string (`isinstance(key, str)`). -/
def PyObj.isStr : PyObj → Bool
  | .pyStr _ => true
  | _ => false

/-- `RefHandler`: `_uri_schemas` (initially `["http", "https"]`) and the
backing registry mapping (`SchemaRegistry._schemas`, of which
`registry[key]` returns the last tuple component). -/
structure RefHandler where
  uriSchemas : List String
  registry : List (String × RegistryEntry)
deriving DecidableEq, Repr

/-- `RefHandler.__init__`. -/
def RefHandler.new (registry : List (String × RegistryEntry)) : RefHandler :=
  { uriSchemas := ["http", "https"], registry := registry }

/-- `RefHandler.__contains__`: non-strings are not contained; any string is
contained, and a string not yet in `_uri_schemas` is appended to it first
(the returned pair is the result together with the possibly-mutated
handler). -/
def RefHandler.containsKey (h : RefHandler) (key : PyObj) : Bool × RefHandler :=
  match key with
  | .pyStr s =>
    if s ∈ h.uriSchemas then (true, h)
    else (true, { h with uriSchemas := h.uriSchemas ++ [s] })
  | _ => (false, h)

/-- `RefHandler.__len__`. -/
def RefHandler.lengthOf (h : RefHandler) : Nat :=
  h.uriSchemas.length

/-- `RefHandler.__getitem__`: for any scheme, the function returned is
`self._registry.__getitem__`, i.e. exact key lookup in the registry
(`SchemaRegistry.__getitem__` projects the schema out of the stored
triple). -/
def RefHandler.getItem (h : RefHandler) (_scheme : String) : String → Option Schema :=
  fun uri => (dictLookup h.registry uri).map (fun e => e.2.2)

/-! ## Validator -/

/-- `dict(pairs)` for an iterable of key-value pairs: fold `d[k] = v` over an
initially empty dict, so a later pair with an existing key overwrites the
earlier value. -/
def pyDict {φ : Type v} (pairs : List (String × φ)) : List (String × φ) :=
  pairs.foldl (fun d kv => dictSet d kv.1 kv.2) []

/-- The value attached to the *last* occurrence of a key in a list of
key-value pairs — the value `dict(pairs)` associates to that key. -/
def lookupLast {φ : Type v} : List (String × φ) → String → Option φ
  | [], _ => none
  | (k, v) :: l, key =>
    match lookupLast l key with
    | some w => some w
    | none => if key = k then some v else none

/-- `Validator.formats`:
`dict(chain(self._in_format_validators.items(), chain.from_iterable(p.format_validators.items() for p in plugins if hasattr(p, "format_validators"))))`.
`inFormatValidators` stands for the items of `self._in_format_validators`
(the caller-supplied mapping, copied in `__init__`). -/
def validatorFormats {φ : Type v} (inFormatValidators : List (String × φ))
    (plugins : List (Plugin φ)) : List (String × φ) :=
  pyDict (inFormatValidators ++ (plugins.filterMap (fun p => p.format_validators)).flatten)

/-- `Validator.__call__` after the one-time compilation of the schema: run
the compiled schema validator (modelled as a function returning
`Except ε Unit`, since it either raises or returns nothing of interest), then
`reduce(lambda acc, fn: fn(acc), self.extra_validations, pyproject)`, where a
raising extra validation aborts the fold (`Except.bind` skips the remaining
functions once an error occurred, exactly as a Python exception would
propagate out of `reduce`). -/
def validatorCall {α : Type u} {ε : Type v} (schemaCheck : α → Except ε Unit)
    (extraValidations : List (α → Except ε α)) (pyproject : α) : Except ε α :=
  match schemaCheck pyproject with
  | .error e => .error e
  | .ok _ => extraValidations.foldl (fun acc fn => acc.bind fn) (.ok pyproject)

/-! ## Vendoring: fixing the generated code -/

/-- A compiled regular expression as `re.compile` produces it: the pattern
string and the flags bit mask. -/
structure CompiledRegex where
  pattern : String
  flags : Nat
deriving DecidableEq, Repr

/-- The named `re` flags inspected by `_repr_regex`, in the order of its
`all_flags` tuple, with their CPython bit values: `re.A = 256`, `re.I = 2`,
`re.DEBUG = 128`, `re.L = 4`, `re.M = 8`, `re.S = 16`, `re.X = 64`. -/
def allFlagNames : List (String × Nat) :=
  [("A", 256), ("I", 2), ("DEBUG", 128), ("L", 4), ("M", 8), ("S", 16), ("X", 64)]

/-- One character of a Python string `repr`, given the chosen quote
character: backslashes, the quote, and the common control characters are
escaped, every other character prints as itself (the embedding models `repr`
for strings of printable characters). -/
def pyReprChar (quote : Char) (c : Char) : String :=
  if c = '\\' then "\\\\"
  else if c = quote then "\\" ++ Char.toString quote
  else if c = '\n' then "\\n"
  else if c = '\r' then "\\r"
  else if c = '\t' then "\\t"
  else Char.toString c

/-- Python `repr` of a string: single quotes, unless the string contains a
single quote and no double quote. -/
def pyRepr (s : String) : String :=
  let quote := if s.contains '\'' && !(s.contains '"') then '"' else '\''
  Char.toString quote ++ String.join (s.toList.map (pyReprChar quote)) ++ Char.toString quote

/-- `_repr_regex`: render one compiled regex as
`re.compile({pattern!r}, re.F1 | re.F2 | ...)`, where the flag list keeps
exactly the named flags whose bit is set, joined by `" | "`, and the leading
`", "` appears only when at least one flag is set. -/
def reprRegexStr (r : CompiledRegex) : String :=
  let names := (allFlagNames.filter (fun fv => (r.flags &&& fv.2) != 0)).map
    (fun fv => "re." ++ fv.1)
  let flags := String.intercalate " | " names
  let flags2 := if flags = "" then "" else ", " ++ flags
  "re.compile(" ++ pyRepr r.pattern ++ flags2 ++ ")"

/-- The replacement text computed by `_fix_generated_code` for the pickled
regex table: `REGEX_PATTERNS = ` followed by an explicit dict literal with
one `{k!r}: re.compile(...)` entry per regex. -/
def renderRegexTable (t : List (String × CompiledRegex)) : String :=
  "REGEX_PATTERNS = " ++ "\x7b\n    " ++
    String.intercalate ",\n    " (t.map (fun kv => pyRepr kv.1 ++ ": " ++ reprRegexStr kv.2)) ++
    "\n\x7d"

/-- One line of generated validator source.  A `pickled` line stands for the
single-line assignment `REGEX_PATTERNS = pickle.loads(<bytes literal>)`
matched by `PICKLED_PATTERNS_REGEX`; it carries the regex table the bytes
literal deserializes to (`pickle.loads` composed with `ast.literal_eval` is
external, so the payload is represented by its parsed value).  Every other
line is `plain` text. -/
inductive CodeLine where
  | plain (text : String)
  | pickled (table : List (String × CompiledRegex))
deriving DecidableEq, Repr

/-- Whether a line is the binary-serialized regex-table assignment. -/
def CodeLine.isPickled : CodeLine → Bool
  | .pickled _ => true
  | .plain _ => false

/-- `NOCHECK_HEADERS`, prepended (joined by newlines) by
`_fix_generated_code`. -/
def noCheckHeaders : List CodeLine :=
  [.plain "# noqa",
   .plain "# type: ignore",
   .plain "# flake8: noqa",
   .plain "# pylint: skip-file",
   .plain "# mypy: ignore-errors",
   .plain "# yapf: disable",
   .plain "# pylama:skip=1",
   .plain "\n\n# *** PLEASE DO NOT MODIFY DIRECTLY: Automatically generated code *** \n\n\n"]

/-- The `VALIDATION_FN_DEF.sub` pass, applied line by line: it rewrites
`def validate...(data):` lines and leaves every other line alone, so it acts
as some text-to-text function on the plain lines (the pickled assignment line
never matches the function-definition pattern).  The pass is abstracted as
`sig` because its details are irrelevant to the regex-table claim. -/
def applySigRewrite (sig : String → String) : CodeLine → CodeLine
  | .plain s => .plain (sig s)
  | .pickled t => .pickled t

/-- The `code.replace("import re, pickle", "import re")` pass, applied when a
pickled assignment was found, modelled line by line. -/
def importFixLine : CodeLine → CodeLine
  | .plain s => .plain (s.replace "import re, pickle" "import re")
  | .pickled t => .pickled t

/-- Whether the generated code still contains a pickled regex-table
assignment (`PICKLED_PATTERNS_REGEX.search` finding a match). -/
def hasPickled (code : List CodeLine) : Bool :=
  code.any CodeLine.isPickled

/-- Replace the first pickled assignment (the one `search` finds) by the
explicit `re.compile` dict literal. -/
def replaceFirstPickled : List CodeLine → List CodeLine
  | [] => []
  | .pickled t :: rest => .plain (renderRegexTable t) :: rest
  | .plain s :: rest => .plain s :: replaceFirstPickled rest

/-- `_fix_generated_code`: run the signature-rewrite pass, then — only when a
pickled regex-table assignment is present — replace it by the explicit dict
literal and rewrite the `import re, pickle` line, and finally prepend the
no-check headers. -/
def fixGeneratedCode (sig : String → String) (code : List CodeLine) : List CodeLine :=
  let code1 := code.map (applySigRewrite sig)
  let code2 :=
    if hasPickled code1 then (replaceFirstPickled code1).map importFixLine
    else code1
  noCheckHeaders ++ code2

/-! ## Vendoring: the NOTICE file and license lookup -/

/-- The exceptions the license-lookup and NOTICE-writing code can raise.
`attributionMissing` is modelled from the spec: the specification's error
taxonomy names an `AttributionMissingError`, but no such class exists in the
sources — the constructor exists only so that statements can compare against
it, and no embedded definition ever produces it. -/
inductive PyError where
  | importError (msg : String)
  | stopIteration
  | attributionMissing
deriving DecidableEq, Repr

/-- One entry of `importlib.metadata.files(...)`: the file's stem and the
text `read_text` returns for it. -/
structure PackagePath where
  stem : String
  text : String
deriving DecidableEq, Repr

/-- `str.upper()`, embedded character by character (`Char.toUpper` agrees
with Python's upper-casing on the ASCII file stems involved here). -/
def pyUpper (s : String) : String :=
  ⟨s.toList.map Char.toUpper⟩

/-- `_find_and_load_licence`: `ImportError` when the package files are
unavailable (`files is None`), otherwise the text of the first file whose
upper-cased stem is `LICENSE`, with `StopIteration` escaping from the bare
`next(...)` when no such file exists. -/
def findAndLoadLicence (files : Option (List PackagePath)) : Except PyError String :=
  match files with
  | none => .error (.importError "Could not find LICENSE for package")
  | some fs =>
    match fs.find? (fun f => pyUpper f.stem = "LICENSE") with
    | some f => .ok f.text
    | none => .error .stopIteration

/-- `replace_text`: apply each replacement in order, skipping those whose
substitute equals the original. -/
def replaceText (text : String) (replacements : List (String × String)) : String :=
  replacements.foldl (fun t os => if os.2 ≠ os.1 then t.replace os.1 os.2 else t) text

/-- Modelled from the spec: the `NOTICE.template` resource and Python's
`str.format` are outside the sources, so instantiating the template with the
opening paragraph, the main-file name and the two license texts is modelled
as their concatenation (the claims about the NOTICE depend only on whether it
is produced, not on its layout). -/
def renderNotice (opening mainFile fjsLicense vppLicense : String) : String :=
  opening ++ "\n" ++ mainFile ++ "\n" ++ fjsLicense ++ "\n" ++ vppLicense

/-- `load_licenses`: both license lookups, in source order (the compiler
evaluates the `fastjsonschema` entry of the dict literal first). -/
def loadLicenses (fjsFiles vppFiles : Option (List PackagePath)) :
    Except PyError (String × String) :=
  match findAndLoadLicence fjsFiles with
  | .error e => .error e
  | .ok fjs =>
    match findAndLoadLicence vppFiles with
    | .error e => .error e
    | .ok vpp => .ok (fjs, vpp)

/-- `write_notice`: choose the opening paragraph (the CLI template formatted
with the command when one is given — modelled as concatenation, since the
template resource is outside the sources — otherwise the API template),
load both licenses, instantiate the NOTICE template, apply the text
replacements, and write the result to the `NOTICE` file.  The returned `ok`
value is the content written; an `error` result means `write_text` was never
reached, i.e. no NOTICE file is written. -/
def writeNotice (cliTemplate apiTemplate : String) (mainFile cmd : String)
    (fjsFiles vppFiles : Option (List PackagePath))
    (replacements : List (String × String)) : Except PyError String :=
  let opening := if cmd ≠ "" then cliTemplate ++ cmd else apiTemplate
  match loadLicenses fjsFiles vppFiles with
  | .error e => .error e
  | .ok licenses =>
    .ok (replaceText (renderNotice opening mainFile licenses.1 licenses.2) replacements)

/-- Whether a NOTICE-writing result failed with the spec's
`AttributionMissingError`. -/
def noticeFailedWithAttributionMissing : Except PyError String → Bool
  | .error .attributionMissing => true
  | _ => false

/-! ## Lemmas about the dict model -/

theorem dictLookup_append_single {α : Type u} (d : List (String × α)) (k : String)
    (v : α) (key : String) :
    dictLookup (d ++ [(k, v)]) key =
      match dictLookup d key with
      | some w => some w
      | none => if key = k then some v else none := by
  induction d with
  | nil => simp [dictLookup]
  | cons hd tl ih =>
    by_cases hk : key = hd.1 <;> simp [dictLookup, hk, ih]

theorem dictLookup_dictSet {α : Type u} (d : List (String × α)) (k : String)
    (v : α) (key : String) :
    dictLookup (dictSet d k v) key = if key = k then some v else dictLookup d key := by
  induction d with
  | nil => simp [dictSet, dictLookup]
  | cons hd tl ih =>
    obtain ⟨k1, v1⟩ := hd
    by_cases h1 : k1 = k
    · subst h1
      by_cases h2 : key = k1 <;> simp [dictSet, dictLookup, h2]
    · by_cases h2 : key = k1
      · subst h2
        simp [dictSet, dictLookup, h1]
      · simp [dictSet, dictLookup, h1, h2, ih]

theorem dictSet_fresh {α : Type u} (d : List (String × α)) (k : String) (v : α)
    (h : dictLookup d k = none) : dictSet d k v = d ++ [(k, v)] := by
  induction d with
  | nil => simp [dictSet]
  | cons hd tl ih =>
    obtain ⟨k1, v1⟩ := hd
    simp only [dictLookup] at h
    by_cases h1 : k = k1
    · rw [if_pos h1] at h
      exact absurd h (by simp)
    · rw [if_neg h1] at h
      have h1s : ¬ k1 = k := fun he => h1 he.symm
      simp [dictSet, h1s, ih h]

theorem length_dictSet_fresh {α : Type u} (d : List (String × α)) (k : String) (v : α)
    (h : dictLookup d k = none) : (dictSet d k v).length = d.length + 1 := by
  rw [dictSet_fresh d k v h]
  simp

/-! ## Lemmas about registry construction -/

/-- When the schema has an `$id` and its declared version passes the truthy
spec-version test, `_ensure_compatibility` reduces to the duplicate-id
check. -/
theorem ensureCompatibility_of_ok (spec : String)
    (schemas : List (String × RegistryEntry)) (reference : String) (s : Schema)
    (sid : String) (hid : s.dollarId = some sid)
    (hv : versionPasses s.dollarSchema spec = true) :
    ensureCompatibility spec schemas reference s =
      if (dictLookup schemas sid).isSome then
        .error (.schemaWithDuplicatedId sid)
      else
        .ok sid := by
  cases hs : s.dollarSchema with
  | none => simp only [ensureCompatibility, hid, hs]
  | some ver =>
    rw [hs] at hv
    simp only [versionPasses, Bool.or_eq_true, decide_eq_true_eq] at hv
    have hne : ¬ (ver ≠ "" ∧ ver ≠ spec) := by
      rcases hv with h | h <;> simp [h]
    simp only [ensureCompatibility, hid, hs, if_neg hne]

/-- The `$id`s declared by the tool schemas of a plugin sequence, in order. -/
def pluginSchemaIds {φ : Type v} (ps : List (Plugin φ)) : List (Option String) :=
  ps.map (fun p => p.tool_schema.dollarId)

/-- The plugin loop succeeds whenever every plugin schema carries an `$id`
that is fresh for the incoming `_schemas` dict and distinct from the other
plugins' ids, and a passing spec version; the resulting dict has one more
entry per plugin, and contains exactly the old keys plus the plugin ids. -/
theorem addPlugins_ok {φ : Type v} (spec : String) (ps : List (Plugin φ)) :
    ∀ (schemas : List (String × RegistryEntry)) (tp : List (String × String)),
    (∀ p ∈ ps, ∃ sid, p.tool_schema.dollarId = some sid ∧
        versionPasses p.tool_schema.dollarSchema spec = true ∧
        dictLookup schemas sid = none) →
    (pluginSchemaIds ps).Pairwise (fun a b => a ≠ b) →
    ∃ schemas2 tp2, addPlugins spec ps schemas tp = .ok (schemas2, tp2) ∧
      schemas2.length = schemas.length + ps.length ∧
      (∀ k, (dictLookup schemas2 k).isSome = true ↔
            ((dictLookup schemas k).isSome = true ∨ some k ∈ pluginSchemaIds ps)) := by
  induction ps with
  | nil =>
    intro schemas tp _ _
    exact ⟨schemas, tp, rfl, by simp, by simp [pluginSchemaIds]⟩
  | cons p ps ih =>
    intro schemas tp hall hpw
    obtain ⟨sid, hid, hv, hfresh⟩ := hall p (by simp)
    have hcompat : ensureCompatibility spec schemas p.tool_name p.tool_schema = .ok sid := by
      rw [ensureCompatibility_of_ok spec schemas _ _ sid hid hv, hfresh]
      simp
    have hpw2 := List.pairwise_cons.mp hpw
    have hall2 : ∀ q ∈ ps, ∃ s2, q.tool_schema.dollarId = some s2 ∧
        versionPasses q.tool_schema.dollarSchema spec = true ∧
        dictLookup (dictSet schemas sid
          ("tool." ++ p.tool_name, pluginIdOf p, p.tool_schema)) s2 = none := by
      intro q hq
      obtain ⟨s2, hq1, hq2, hq3⟩ := hall q (by simp [hq])
      refine ⟨s2, hq1, hq2, ?_⟩
      have hmemq : some s2 ∈ pluginSchemaIds ps := by
        rw [← hq1]
        exact List.mem_map_of_mem _ hq
      have hne : ¬ s2 = sid := by
        intro he
        have hx : p.tool_schema.dollarId = some s2 := by rw [hid, he]
        exact hpw2.1 (some s2) hmemq hx
      rw [dictLookup_dictSet, if_neg hne]
      exact hq3
    obtain ⟨schemas2, tp2, heq, hlen, hmem⟩ :=
      ih (dictSet schemas sid ("tool." ++ p.tool_name, pluginIdOf p, p.tool_schema))
        (dictSet tp p.tool_name sid) hall2 hpw2.2
    refine ⟨schemas2, tp2, ?_, ?_, ?_⟩
    · simp only [addPlugins, hcompat]
      exact heq
    · rw [hlen, length_dictSet_fresh _ _ _ hfresh]
      simp only [List.length_cons]
      omega
    · intro k
      rw [hmem k]
      have h1 : (dictLookup (dictSet schemas sid
          ("tool." ++ p.tool_name, pluginIdOf p, p.tool_schema)) k).isSome = true ↔
          (k = sid ∨ (dictLookup schemas k).isSome = true) := by
        rw [dictLookup_dictSet]
        by_cases hk : k = sid <;> simp [hk]
      rw [h1]
      simp only [pluginSchemaIds, List.map_cons, List.mem_cons, hid, Option.some.injEq]
      constructor
      · rintro ((h | h) | h)
        · exact Or.inr (Or.inl h)
        · exact Or.inl h
        · exact Or.inr (Or.inr h)
      · rintro (h | h | h)
        · exact Or.inl (Or.inr h)
        · exact Or.inl (Or.inl h)
        · exact Or.inr h

/-- Claim C1: for every sequence of plugins whose tool schemas have
pairwise-distinct `$id`s, also distinct from the project-table and top-level
schema ids, and whose declared spec versions match the Registry's,
`SchemaRegistry` construction succeeds and the length of the resulting
registry equals 1 (project-table schema) + number of plugins + 1 (root
schema). -/
theorem claim_C1 {φ : Type v} (top : TopLevelSchema)
    (projectTable : Schema) (plugins : List (Plugin φ)) (psid : String)
    (hpid : projectTable.dollarId = some psid)
    (hpver : projectTable.dollarSchema = none ∨
             projectTable.dollarSchema = some top.dollarSchema)
    (hptop : psid ≠ top.dollarId)
    (hplugins : ∀ p ∈ plugins, ∃ sid, p.tool_schema.dollarId = some sid ∧
        (p.tool_schema.dollarSchema = none ∨
         p.tool_schema.dollarSchema = some top.dollarSchema) ∧
        sid ≠ psid ∧ sid ≠ top.dollarId)
    (hdistinct : (pluginSchemaIds plugins).Pairwise (fun a b => a ≠ b)) :
    registryResultLen (registryInit top projectTable plugins) =
      some (1 + plugins.length + 1) := by
  have hpver2 : versionPasses projectTable.dollarSchema top.dollarSchema = true := by
    rcases hpver with h | h <;> simp [versionPasses, h]
  have hproj : ensureCompatibility top.dollarSchema [] "pep621_project" projectTable =
      .ok psid := by
    rw [ensureCompatibility_of_ok top.dollarSchema [] _ _ psid hpid hpver2]
    simp [dictLookup]
  have hall : ∀ p ∈ plugins, ∃ sid, p.tool_schema.dollarId = some sid ∧
      versionPasses p.tool_schema.dollarSchema top.dollarSchema = true ∧
      dictLookup [(psid, ("project", "validate_pyproject.api - PEP621", projectTable))]
        sid = none := by
    intro p hp
    obtain ⟨sid, h1, h2, h3, _⟩ := hplugins p hp
    refine ⟨sid, h1, ?_, ?_⟩
    · rcases h2 with h | h <;> simp [versionPasses, h]
    · simp [dictLookup, h3]
  obtain ⟨schemas2, tp2, heq, hlen, hmem⟩ :=
    addPlugins_ok top.dollarSchema plugins
      [(psid, ("project", "validate_pyproject.api - PEP621", projectTable))]
      top.toolProps hall hdistinct
  have hrootFresh : dictLookup schemas2 top.dollarId = none := by
    by_contra hcon
    have hsome : (dictLookup schemas2 top.dollarId).isSome = true := by
      cases hl : dictLookup schemas2 top.dollarId with
      | none => exact absurd hl hcon
      | some e => rfl
    rcases (hmem top.dollarId).mp hsome with h | h
    · have hnone : dictLookup
          [(psid, ("project", "validate_pyproject.api - PEP621", projectTable))]
          top.dollarId = none := by
        simp only [dictLookup]
        rw [if_neg (fun he => hptop he.symm)]
      rw [hnone] at h
      simp at h
    · obtain ⟨p, hp, hpe⟩ := List.mem_map.mp h
      obtain ⟨sid, h1, _, _, h4⟩ := hplugins p hp
      have hpe2 : p.tool_schema.dollarId = some top.dollarId := hpe
      rw [h1] at hpe2
      exact h4 (Option.some.inj hpe2)
  simp only [registryInit, hproj, heq, registryResultLen]
  rw [length_dictSet_fresh _ _ _ hrootFresh, hlen]
  simp only [List.length_cons, List.length_nil]

/-! ## Claims C2, C3, C4 -/

/-- Claim C2, counterexample: two fragments presented to construction both
carry `$id` `"x"`, but the second also declares spec version `"other"`, which
differs from the registry's `"specv"`; construction raises
`InvalidSchemaVersion` — the version check precedes the duplicate-id check —
so it does not always raise `SchemaWithDuplicatedId`. -/
theorem claim_C2_counterexample :
    registryInit
        { dollarId := "top_id", dollarSchema := "specv", toolProps := [] }
        { dollarId := some "proj_id", dollarSchema := none,
          toolProps := [], projectRef := none }
        ([{ moduleName := "m", qualName := "P1", tool_name := "t1",
            tool_schema := { dollarId := some "x", dollarSchema := none,
                             toolProps := [], projectRef := none },
            format_validators := none },
          { moduleName := "m", qualName := "P2", tool_name := "t2",
            tool_schema := { dollarId := some "x", dollarSchema := some "other",
                             toolProps := [], projectRef := none },
            format_validators := none }] : List (Plugin Unit)) =
      .error (.invalidSchemaVersion "t2" "other" "specv") ∧
    isDuplicatedIdError (registryInit
        { dollarId := "top_id", dollarSchema := "specv", toolProps := [] }
        { dollarId := some "proj_id", dollarSchema := none,
          toolProps := [], projectRef := none }
        ([{ moduleName := "m", qualName := "P1", tool_name := "t1",
            tool_schema := { dollarId := some "x", dollarSchema := none,
                             toolProps := [], projectRef := none },
            format_validators := none },
          { moduleName := "m", qualName := "P2", tool_name := "t2",
            tool_schema := { dollarId := some "x", dollarSchema := some "other",
                             toolProps := [], projectRef := none },
            format_validators := none }] : List (Plugin Unit))) = false := by
  constructor <;> rfl

/-- Helper for the amended C2: one ordered pair of same-`$id` fragments whose
declared versions pass the spec-version test makes construction fail with
`SchemaWithDuplicatedId` on that id (either because the first already collides
with the project table, or because the second collides with the first). -/
theorem registryInit_pair_dup {φ : Type v} (top : TopLevelSchema)
    (projectTable : Schema) (pa pb : Plugin φ) (psid x : String)
    (hpid : projectTable.dollarId = some psid)
    (hpver : versionPasses projectTable.dollarSchema top.dollarSchema = true)
    (ha : pa.tool_schema.dollarId = some x)
    (hb : pb.tool_schema.dollarId = some x)
    (hva : versionPasses pa.tool_schema.dollarSchema top.dollarSchema = true)
    (hvb : versionPasses pb.tool_schema.dollarSchema top.dollarSchema = true) :
    registryInit top projectTable [pa, pb] = .error (.schemaWithDuplicatedId x) := by
  have hproj : ensureCompatibility top.dollarSchema [] "pep621_project" projectTable =
      .ok psid := by
    rw [ensureCompatibility_of_ok top.dollarSchema [] _ _ psid hpid hpver]
    simp [dictLookup]
  by_cases hx : x = psid
  · have hA : ensureCompatibility top.dollarSchema
        [(psid, ("project", "validate_pyproject.api - PEP621", projectTable))]
        pa.tool_name pa.tool_schema = .error (.schemaWithDuplicatedId x) := by
      rw [ensureCompatibility_of_ok _ _ _ _ x ha hva]
      have hp : (dictLookup
          [(psid, ("project", "validate_pyproject.api - PEP621", projectTable))]
          x).isSome = true := by
        simp [dictLookup, hx]
      rw [if_pos hp]
    simp only [registryInit, hproj, addPlugins, hA]
  · have hfA : dictLookup
        [(psid, ("project", "validate_pyproject.api - PEP621", projectTable))]
        x = none := by
      simp only [dictLookup]
      rw [if_neg hx]
    have hA : ensureCompatibility top.dollarSchema
        [(psid, ("project", "validate_pyproject.api - PEP621", projectTable))]
        pa.tool_name pa.tool_schema = .ok x := by
      rw [ensureCompatibility_of_ok _ _ _ _ x ha hva, hfA]
      simp
    have hB : ensureCompatibility top.dollarSchema
        (dictSet [(psid, ("project", "validate_pyproject.api - PEP621", projectTable))]
          x ("tool." ++ pa.tool_name, pluginIdOf pa, pa.tool_schema))
        pb.tool_name pb.tool_schema = .error (.schemaWithDuplicatedId x) := by
      rw [ensureCompatibility_of_ok _ _ _ _ x hb hvb]
      have hp : (dictLookup
          (dictSet [(psid, ("project", "validate_pyproject.api - PEP621", projectTable))]
            x ("tool." ++ pa.tool_name, pluginIdOf pa, pa.tool_schema)) x).isSome = true := by
        rw [dictLookup_dictSet]
        simp
      rw [if_pos hp]
    simp only [registryInit, hproj, addPlugins, hA, hB]

/-- Claim C2 (amended): for every two fragments presented to SchemaRegistry
construction that carry the same `$id` and whose declared `$schema` versions
(when present and non-empty) equal the Registry's, construction always raises
`SchemaWithDuplicatedId`, regardless of the order in which the two fragments
are registered. -/
theorem claim_C2_amended {φ : Type v} (top : TopLevelSchema)
    (projectTable : Schema) (p1 p2 : Plugin φ) (psid x : String)
    (hpid : projectTable.dollarId = some psid)
    (hpver : versionPasses projectTable.dollarSchema top.dollarSchema = true)
    (h1 : p1.tool_schema.dollarId = some x)
    (h2 : p2.tool_schema.dollarId = some x)
    (hv1 : versionPasses p1.tool_schema.dollarSchema top.dollarSchema = true)
    (hv2 : versionPasses p2.tool_schema.dollarSchema top.dollarSchema = true) :
    registryInit top projectTable [p1, p2] = .error (.schemaWithDuplicatedId x) ∧
    registryInit top projectTable [p2, p1] = .error (.schemaWithDuplicatedId x) :=
  ⟨registryInit_pair_dup top projectTable p1 p2 psid x hpid hpver h1 h2 hv1 hv2,
   registryInit_pair_dup top projectTable p2 p1 psid x hpid hpver h2 h1 hv2 hv1⟩

/-- Claim C3: a fragment lacking a top-level `$id` makes the compatibility
check raise `SchemaMissingId`, whatever `$schema` version the fragment
declares and whatever the registry already contains — the missing-id check
runs before the spec-version and duplicate-id checks. -/
theorem claim_C3 (specVersion : String) (schemas : List (String × RegistryEntry))
    (reference : String) (ver : Option String) (tps : List (String × String))
    (pr : Option String) :
    ensureCompatibility specVersion schemas reference
      { dollarId := none, dollarSchema := ver, toolProps := tps, projectRef := pr } =
      .error (.schemaMissingId reference) := rfl

/-- Claim C4: two plugins declaring the same tool name with distinct schema
`$id`s do not make construction fail; the root schema's `tool` property for
that name holds a `$ref` to the second plugin's `$id`, while the first
plugin's schema remains retrievable from the registry by its own `$id`. -/
theorem claim_C4 {φ : Type v} (top : TopLevelSchema) (projectTable : Schema)
    (p1 p2 : Plugin φ) (psid sid1 sid2 : String)
    (hpid : projectTable.dollarId = some psid)
    (hpver : versionPasses projectTable.dollarSchema top.dollarSchema = true)
    (htool : p2.tool_name = p1.tool_name)
    (h1 : p1.tool_schema.dollarId = some sid1)
    (h2 : p2.tool_schema.dollarId = some sid2)
    (hv1 : versionPasses p1.tool_schema.dollarSchema top.dollarSchema = true)
    (hv2 : versionPasses p2.tool_schema.dollarSchema top.dollarSchema = true)
    (h12 : sid1 ≠ sid2)
    (h1p : sid1 ≠ psid) (h2p : sid2 ≠ psid)
    (h1t : sid1 ≠ top.dollarId) :
    ∃ r, registryInit top projectTable [p1, p2] = .ok r ∧
      r.main.bind (fun m => dictLookup m.toolProps p1.tool_name) = some sid2 ∧
      r.getSchema sid1 = some p1.tool_schema := by
  have hproj : ensureCompatibility top.dollarSchema [] "pep621_project" projectTable =
      .ok psid := by
    rw [ensureCompatibility_of_ok top.dollarSchema [] _ _ psid hpid hpver]
    simp [dictLookup]
  have hf1 : dictLookup
      [(psid, ("project", "validate_pyproject.api - PEP621", projectTable))]
      sid1 = none := by
    simp only [dictLookup]
    rw [if_neg h1p]
  have hA : ensureCompatibility top.dollarSchema
      [(psid, ("project", "validate_pyproject.api - PEP621", projectTable))]
      p1.tool_name p1.tool_schema = .ok sid1 := by
    rw [ensureCompatibility_of_ok _ _ _ _ sid1 h1 hv1, hf1]
    simp
  have hf2 : dictLookup
      (dictSet [(psid, ("project", "validate_pyproject.api - PEP621", projectTable))]
        sid1 ("tool." ++ p1.tool_name, pluginIdOf p1, p1.tool_schema)) sid2 = none := by
    rw [dictLookup_dictSet]
    rw [if_neg (fun he => h12 he.symm)]
    simp only [dictLookup]
    rw [if_neg h2p]
  have hB : ensureCompatibility top.dollarSchema
      (dictSet [(psid, ("project", "validate_pyproject.api - PEP621", projectTable))]
        sid1 ("tool." ++ p1.tool_name, pluginIdOf p1, p1.tool_schema))
      p2.tool_name p2.tool_schema = .ok sid2 := by
    rw [ensureCompatibility_of_ok _ _ _ _ sid2 h2 hv2, hf2]
    simp
  simp only [registryInit, hproj, addPlugins, hA, hB]
  refine ⟨_, rfl, ?_, ?_⟩
  · simp only [SchemaRegistry.main, SchemaRegistry.getSchema]
    rw [dictLookup_dictSet, if_pos rfl]
    show dictLookup (dictSet (dictSet top.toolProps p1.tool_name sid1)
      p2.tool_name sid2) p1.tool_name = some sid2
    rw [dictLookup_dictSet, if_pos htool.symm]
  · simp only [SchemaRegistry.getSchema]
    rw [dictLookup_dictSet, if_neg h1t,
      dictLookup_dictSet, if_neg h12,
      dictLookup_dictSet, if_pos rfl]
    rfl

/-! ## Claims C5, C6, C7, C10 -/

/-- Folding `d[k] = v` over a pair list associates each key with the value of
its last occurrence; earlier-inserted bindings survive only when never
overwritten. -/
theorem foldl_dictSet_lookup {φ : Type v} (l : List (String × φ)) (key : String) :
    ∀ d, dictLookup (l.foldl (fun d kv => dictSet d kv.1 kv.2) d) key =
      (match lookupLast l key with
       | some w => some w
       | none => dictLookup d key) := by
  induction l with
  | nil =>
    intro d
    simp [lookupLast]
  | cons kv l ih =>
    intro d
    obtain ⟨k, v⟩ := kv
    simp only [List.foldl_cons]
    rw [ih]
    cases hl : lookupLast l key with
    | some w => simp [lookupLast, hl]
    | none =>
      simp only [lookupLast, hl]
      rw [dictLookup_dictSet]
      by_cases hk : key = k <;> simp [hk]

/-- Claim C5: `Validator.formats` is the dict built by inserting the
caller-supplied format mapping first and then each plugin's
`format_validators` (for the plugins that declare them) in plugin order, so
looking up any key yields the value of the *last* insertion under that key —
a plugin's function shadows a caller-supplied one of the same name, and a
later plugin's shadows an earlier plugin's. -/
theorem claim_C5 {φ : Type v} (inFormatValidators : List (String × φ))
    (plugins : List (Plugin φ)) (key : String) :
    dictLookup (validatorFormats inFormatValidators plugins) key =
      lookupLast (inFormatValidators ++
        (plugins.filterMap (fun p => p.format_validators)).flatten) key := by
  unfold validatorFormats pyDict
  rw [foldl_dictSet_lookup]
  cases lookupLast (inFormatValidators ++
      (plugins.filterMap (fun p => p.format_validators)).flatten) key with
  | some w => rfl
  | none => rfl

/-- Claim C6: for a Validator with extra validations `[A, B]` and a document
that passes schema validation, the call returns `B (A doc)` (each function
receiving the previous one's output); when `A` raises, the result is `A`'s
error and `B` is never invoked. -/
theorem claim_C6 {α : Type u} {ε : Type v} (schemaCheck : α → Except ε Unit)
    (A B : α → Except ε α) (doc : α) (hok : schemaCheck doc = .ok ()) :
    validatorCall schemaCheck [A, B] doc = (A doc).bind B ∧
    ∀ e, A doc = .error e → validatorCall schemaCheck [A, B] doc = .error e := by
  have h1 : validatorCall schemaCheck [A, B] doc = (A doc).bind B := by
    unfold validatorCall
    rw [hok]
    rfl
  refine ⟨h1, fun e he => ?_⟩
  rw [h1, he]
  rfl

/-- Claim C7: membership of any string key in the `RefHandler` reports true
and the key is remembered — it is afterwards reported as contained with no
further state change, and it is enumerated by iteration (`_uri_schemas`,
which starts as `["http", "https"]`); and for every scheme the lookup returns
the resolution function that ignores the scheme and resolves a referenced id
by exact key lookup in the registry. -/
theorem claim_C7 (h : RefHandler) (reg : List (String × RegistryEntry))
    (s scheme uri : String) :
    (h.containsKey (PyObj.pyStr s)).1 = true ∧
    s ∈ (h.containsKey (PyObj.pyStr s)).2.uriSchemas ∧
    (h.containsKey (PyObj.pyStr s)).2.containsKey (PyObj.pyStr s) =
      (true, (h.containsKey (PyObj.pyStr s)).2) ∧
    "http" ∈ (RefHandler.new reg).uriSchemas ∧
    "https" ∈ (RefHandler.new reg).uriSchemas ∧
    h.getItem scheme uri = (dictLookup h.registry uri).map (fun e => e.2.2) := by
  by_cases hs : s ∈ h.uriSchemas
  · refine ⟨?_, ?_, ?_, ?_, ?_, rfl⟩
    · simp [RefHandler.containsKey, hs]
    · simp only [RefHandler.containsKey, if_pos hs]
      exact hs
    · simp only [RefHandler.containsKey, if_pos hs]
    · simp [RefHandler.new]
    · simp [RefHandler.new]
  · have hmem : s ∈ (h.uriSchemas ++ [s]) := by simp
    refine ⟨?_, ?_, ?_, ?_, ?_, rfl⟩
    · simp [RefHandler.containsKey, hs]
    · simp only [RefHandler.containsKey, if_neg hs]
      exact hmem
    · simp only [RefHandler.containsKey, if_neg hs]
      rw [if_pos hmem]
    · simp [RefHandler.new]
    · simp [RefHandler.new]

/-- Claim C10: a membership query with a non-string key returns `False` and
leaves the handler unchanged — in particular its length does not grow. -/
theorem claim_C10 (h : RefHandler) (key : PyObj) (hk : key.isStr = false) :
    h.containsKey key = (false, h) ∧
    (h.containsKey key).2.lengthOf = h.lengthOf := by
  cases key with
  | pyStr s => simp [PyObj.isStr] at hk
  | pyInt n => exact ⟨rfl, rfl⟩
  | pyNone => exact ⟨rfl, rfl⟩

/-! ## Claim C8 -/

/-- The signature-rewrite pass does not change whether a line is the pickled
regex-table assignment. -/
theorem isPickled_applySigRewrite (sig : String → String) (l : CodeLine) :
    (applySigRewrite sig l).isPickled = l.isPickled := by
  cases l <;> rfl

/-- The import-rewrite pass does not change whether a line is the pickled
regex-table assignment. -/
theorem isPickled_importFixLine (l : CodeLine) :
    (importFixLine l).isPickled = l.isPickled := by
  cases l <;> rfl

/-- Replacing the first pickled assignment, when everything before it is
plain, substitutes the rendered `re.compile` dict literal in place. -/
theorem replaceFirstPickled_append (pre post : List CodeLine)
    (t : List (String × CompiledRegex))
    (hpre : ∀ l ∈ pre, l.isPickled = false) :
    replaceFirstPickled (pre ++ CodeLine.pickled t :: post) =
      pre ++ CodeLine.plain (renderRegexTable t) :: post := by
  induction pre with
  | nil => rfl
  | cons l pre ih =>
    cases l with
    | pickled t2 =>
      have := hpre (CodeLine.pickled t2) (by simp)
      simp [CodeLine.isPickled] at this
    | plain s =>
      simp only [List.cons_append, replaceFirstPickled, List.append_eq]
      rw [ih (fun l hl => hpre l (by simp [hl]))]

/-- Claim C8: when the generated code contains the single serialized
regex-table assignment, the code-fixing pass replaces exactly that line with
the explicit dict literal built from `re.compile(pattern, flags)` entries
(the flags rendered as the `|` of the named `re` flags set on each regex, via
`reprRegexStr` inside `renderRegexTable`), and the resulting file contains no
binary-serialized payload. -/
theorem claim_C8 (sig : String → String) (pre post : List CodeLine)
    (t : List (String × CompiledRegex))
    (hpre : ∀ l ∈ pre, l.isPickled = false)
    (hpost : ∀ l ∈ post, l.isPickled = false) :
    fixGeneratedCode sig (pre ++ CodeLine.pickled t :: post) =
      noCheckHeaders ++
        ((pre.map (applySigRewrite sig)).map importFixLine ++
          importFixLine (CodeLine.plain (renderRegexTable t)) ::
          (post.map (applySigRewrite sig)).map importFixLine) ∧
    ∀ l ∈ fixGeneratedCode sig (pre ++ CodeLine.pickled t :: post),
      l.isPickled = false := by
  have hmap : (pre ++ CodeLine.pickled t :: post).map (applySigRewrite sig) =
      pre.map (applySigRewrite sig) ++
        CodeLine.pickled t :: post.map (applySigRewrite sig) := by
    simp [applySigRewrite]
  have hpre2 : ∀ l ∈ pre.map (applySigRewrite sig), l.isPickled = false := by
    intro l hl
    obtain ⟨x, hx, hxe⟩ := List.mem_map.mp hl
    rw [← hxe, isPickled_applySigRewrite]
    exact hpre x hx
  have hhas : hasPickled (pre.map (applySigRewrite sig) ++
      CodeLine.pickled t :: post.map (applySigRewrite sig)) = true := by
    apply List.any_eq_true.mpr
    exact ⟨CodeLine.pickled t, by simp, rfl⟩
  have hfix : fixGeneratedCode sig (pre ++ CodeLine.pickled t :: post) =
      noCheckHeaders ++
        ((pre.map (applySigRewrite sig)).map importFixLine ++
          importFixLine (CodeLine.plain (renderRegexTable t)) ::
          (post.map (applySigRewrite sig)).map importFixLine) := by
    simp only [fixGeneratedCode, hmap, hasPickled]
    simp only [hasPickled] at hhas
    rw [if_pos hhas, replaceFirstPickled_append _ _ t hpre2]
    simp
  refine ⟨hfix, ?_⟩
  rw [hfix]
  intro l hl
  rcases List.mem_append.mp hl with hh | hh
  · have hhdr : ∀ x ∈ noCheckHeaders, x.isPickled = false := by decide
    exact hhdr l hh
  · rcases List.mem_append.mp hh with hh2 | hh2
    · obtain ⟨x, hx, hxe⟩ := List.mem_map.mp hh2
      rw [← hxe, isPickled_importFixLine]
      exact hpre2 x hx
    · rcases List.mem_cons.mp hh2 with he | hh3
      · subst he
        rfl
      · obtain ⟨x, hx, hxe⟩ := List.mem_map.mp hh3
        obtain ⟨y, hy, hye⟩ := List.mem_map.mp hx
        rw [← hxe, isPickled_importFixLine, ← hye, isPickled_applySigRewrite]
        exact hpost y hy

/-! ## Claim C9 -/

/-- Claim C9, counterexample: with the `fastjsonschema` package files
unavailable, the NOTICE-writing step fails with
`ImportError("Could not find LICENSE for package")` — not with the
`AttributionMissingError` the claim names, which the code never raises (no
such class exists in the sources). -/
theorem claim_C9_counterexample :
    writeNotice "cli-notice " "api-notice" "__init__.py" "" none none [] =
      .error (.importError "Could not find LICENSE for package") ∧
    noticeFailedWithAttributionMissing
      (writeNotice "cli-notice " "api-notice" "__init__.py" "" none none []) = false := by
  constructor <;> rfl

/-- Claim C9 (amended): when the vendoring pipeline cannot locate a LICENSE
file for an embedded dependency, the license lookup raises — `ImportError`
when the dependency's package files are unavailable, `StopIteration` when no
file with stem LICENSE (case-insensitive) is among them — and the error
propagates out of the NOTICE-writing step before anything is written, for
either dependency. -/
theorem claim_C9_amended (cliTemplate apiTemplate mainFile cmd : String)
    (vppFiles : Option (List PackagePath)) (replacements : List (String × String))
    (fs : List PackagePath)
    (hmiss : fs.find? (fun f => pyUpper f.stem = "LICENSE") = none) :
    findAndLoadLicence none =
      .error (.importError "Could not find LICENSE for package") ∧
    findAndLoadLicence (some fs) = .error .stopIteration ∧
    (∀ fjsFiles e, findAndLoadLicence fjsFiles = .error e →
      writeNotice cliTemplate apiTemplate mainFile cmd fjsFiles vppFiles
        replacements = .error e) ∧
    (∀ fjsFiles lic e, findAndLoadLicence fjsFiles = .ok lic →
      findAndLoadLicence vppFiles = .error e →
      writeNotice cliTemplate apiTemplate mainFile cmd fjsFiles vppFiles
        replacements = .error e) := by
  refine ⟨rfl, ?_, ?_, ?_⟩
  · simp only [findAndLoadLicence, hmiss]
  · intro fjsFiles e he
    simp only [writeNotice, loadLicenses, he]
  · intro fjsFiles lic e hok he
    simp only [writeNotice, loadLicenses, hok, he]

/-! ## Witnesses -/

/-- Witness for C1: a single plugin with a fresh, distinct id yields a
registry of length 3. -/
theorem claim_C1_witness :
    ("pep621_id" : String) ≠ "pyproject_toml_id" ∧
    registryResultLen (registryInit
      { dollarId := "pyproject_toml_id", dollarSchema := "specv", toolProps := [] }
      { dollarId := some "pep621_id", dollarSchema := none,
        toolProps := [], projectRef := none }
      ([{ moduleName := "mod", qualName := "Cls", tool_name := "mytool",
          tool_schema := { dollarId := some "tool_id", dollarSchema := some "specv",
                           toolProps := [], projectRef := none },
          format_validators := none }] : List (Plugin Unit))) = some (1 + 1 + 1) :=
  ⟨by decide,
   claim_C1 _ _ _ "pep621_id" rfl (Or.inl rfl) (by decide)
     (fun p hp => by
       rw [List.mem_singleton] at hp
       subst hp
       exact ⟨"tool_id", rfl, Or.inr rfl, by decide, by decide⟩)
     (by simp [pluginSchemaIds])⟩

/-- Witness for the amended C2: two plugins sharing `$id` `"x"`, in both
orders, fail with `SchemaWithDuplicatedId "x"`. -/
theorem claim_C2_witness :
    versionPasses none "specv" = true ∧
    (registryInit
        { dollarId := "top_id", dollarSchema := "specv", toolProps := [] }
        { dollarId := some "proj_id", dollarSchema := none,
          toolProps := [], projectRef := none }
        ([{ moduleName := "m", qualName := "P1", tool_name := "t1",
            tool_schema := { dollarId := some "x", dollarSchema := none,
                             toolProps := [], projectRef := none },
            format_validators := none },
          { moduleName := "m", qualName := "P2", tool_name := "t2",
            tool_schema := { dollarId := some "x", dollarSchema := none,
                             toolProps := [], projectRef := none },
            format_validators := none }] : List (Plugin Unit)) =
        .error (.schemaWithDuplicatedId "x") ∧
      registryInit
        { dollarId := "top_id", dollarSchema := "specv", toolProps := [] }
        { dollarId := some "proj_id", dollarSchema := none,
          toolProps := [], projectRef := none }
        ([{ moduleName := "m", qualName := "P2", tool_name := "t2",
            tool_schema := { dollarId := some "x", dollarSchema := none,
                             toolProps := [], projectRef := none },
            format_validators := none },
          { moduleName := "m", qualName := "P1", tool_name := "t1",
            tool_schema := { dollarId := some "x", dollarSchema := none,
                             toolProps := [], projectRef := none },
            format_validators := none }] : List (Plugin Unit)) =
        .error (.schemaWithDuplicatedId "x")) :=
  ⟨rfl,
   claim_C2_amended
     { dollarId := "top_id", dollarSchema := "specv", toolProps := [] }
     { dollarId := some "proj_id", dollarSchema := none,
       toolProps := [], projectRef := none }
     { moduleName := "m", qualName := "P1", tool_name := "t1",
       tool_schema := { dollarId := some "x", dollarSchema := none,
                        toolProps := [], projectRef := none },
       format_validators := (none : Option (List (String × Unit))) }
     { moduleName := "m", qualName := "P2", tool_name := "t2",
       tool_schema := { dollarId := some "x", dollarSchema := none,
                        toolProps := [], projectRef := none },
       format_validators := none }
     "proj_id" "x" rfl rfl rfl rfl rfl rfl⟩

/-- Witness for C4: two plugins both naming tool `"x"` with ids `"A"` and
`"B"`; construction succeeds, `tool.x` points at `"B"`, `"A"` stays
retrievable. -/
theorem claim_C4_witness :
    ("A" : String) ≠ "B" ∧
    ∃ r, registryInit
        { dollarId := "top_id", dollarSchema := "specv", toolProps := [] }
        { dollarId := some "proj_id", dollarSchema := none,
          toolProps := [], projectRef := none }
        ([{ moduleName := "m", qualName := "P1", tool_name := "x",
            tool_schema := { dollarId := some "A", dollarSchema := none,
                             toolProps := [], projectRef := none },
            format_validators := none },
          { moduleName := "m", qualName := "P2", tool_name := "x",
            tool_schema := { dollarId := some "B", dollarSchema := none,
                             toolProps := [], projectRef := none },
            format_validators := none }] : List (Plugin Unit)) = .ok r ∧
      r.main.bind (fun m => dictLookup m.toolProps "x") = some "B" ∧
      r.getSchema "A" = some { dollarId := some "A", dollarSchema := none,
                               toolProps := [], projectRef := none } :=
  ⟨by decide,
   claim_C4 _ _ _ _ "proj_id" "A" "B" rfl rfl rfl rfl rfl rfl rfl
     (by decide) (by decide) (by decide) (by decide)⟩

/-- Witness for C6: with schema check passing, validating `3` through the
extra validations `n + 1` then `n * 2` behaves as their composition. -/
theorem claim_C6_witness :
    (fun _ : Nat => (Except.ok () : Except Unit Unit)) 3 = Except.ok () ∧
    (validatorCall (fun _ : Nat => (Except.ok () : Except Unit Unit))
        [fun n => Except.ok (n + 1), fun n => Except.ok (n * 2)] 3 =
      ((fun n : Nat => (Except.ok (n + 1) : Except Unit Nat)) 3).bind
        (fun n => Except.ok (n * 2)) ∧
      ∀ e, (fun n : Nat => (Except.ok (n + 1) : Except Unit Nat)) 3 = Except.error e →
        validatorCall (fun _ : Nat => (Except.ok () : Except Unit Unit))
          [fun n => Except.ok (n + 1), fun n => Except.ok (n * 2)] 3 =
          Except.error e) :=
  ⟨rfl,
   claim_C6 (fun _ : Nat => (Except.ok () : Except Unit Unit))
     (fun n => Except.ok (n + 1)) (fun n => Except.ok (n * 2)) 3 rfl⟩

/-- Witness for C8: a two-line generated file whose second line is the
pickled table with one ignore-case multiline regex. -/
theorem claim_C8_witness :
    (∀ l ∈ [CodeLine.plain "import re, pickle"], l.isPickled = false) ∧
    (∀ l ∈ ([] : List CodeLine), l.isPickled = false) ∧
    (fixGeneratedCode (fun s => s)
        ([CodeLine.plain "import re, pickle"] ++
          CodeLine.pickled [("k", { pattern := "a", flags := 10 })] :: []) =
      noCheckHeaders ++
        (([CodeLine.plain "import re, pickle"].map
            (applySigRewrite (fun s => s))).map importFixLine ++
          importFixLine (CodeLine.plain
            (renderRegexTable [("k", { pattern := "a", flags := 10 })])) ::
          (([] : List CodeLine).map (applySigRewrite (fun s => s))).map importFixLine) ∧
      ∀ l ∈ fixGeneratedCode (fun s => s)
          ([CodeLine.plain "import re, pickle"] ++
            CodeLine.pickled [("k", { pattern := "a", flags := 10 })] :: []),
        l.isPickled = false) :=
  ⟨by decide, by decide,
   claim_C8 (fun s => s) [CodeLine.plain "import re, pickle"] []
     [("k", { pattern := "a", flags := 10 })] (by decide) (by decide)⟩

/-- Witness for the amended C9: no LICENSE-stem file among a dependency's
files, or no files at all, aborts the NOTICE step with the corresponding
error. -/
theorem claim_C9_witness :
    ([{ stem := "README", text := "readme" }] : List PackagePath).find?
      (fun f => pyUpper f.stem = "LICENSE") = none ∧
    (findAndLoadLicence none =
      .error (.importError "Could not find LICENSE for package") ∧
    findAndLoadLicence (some [{ stem := "README", text := "readme" }]) =
      .error .stopIteration ∧
    (∀ fjsFiles e, findAndLoadLicence fjsFiles = .error e →
      writeNotice "cli " "api" "__init__.py" "" fjsFiles none [] = .error e) ∧
    (∀ fjsFiles lic e, findAndLoadLicence fjsFiles = .ok lic →
      findAndLoadLicence none = .error e →
      writeNotice "cli " "api" "__init__.py" "" fjsFiles none [] = .error e)) :=
  ⟨by decide,
   claim_C9_amended "cli " "api" "__init__.py" "" none []
     [{ stem := "README", text := "readme" }] (by decide)⟩

/-- Witness for C10: querying the handler with the integer `7` returns
`False` and changes nothing. -/
theorem claim_C10_witness :
    (PyObj.pyInt 7).isStr = false ∧
    ((RefHandler.new []).containsKey (PyObj.pyInt 7) = (false, RefHandler.new []) ∧
     ((RefHandler.new []).containsKey (PyObj.pyInt 7)).2.lengthOf =
       (RefHandler.new []).lengthOf) :=
  ⟨rfl, claim_C10 (RefHandler.new []) (PyObj.pyInt 7) rfl⟩

end ValidatePyproject
